import Mathlib

/-!
Verification of the PhotonSim photon lookup-table subsystem.

This file gives a shallow embedding, over exact rationals, of the table
builders and query engines of the repository:

* `DETable` / `DETable.query` / `DETable.query2dLayer` embed
  `DiscreteEnergyTableQuery.query` and `DiscreteEnergyTableQuery._query_2d_layer`
  from `tools/photon_table/query_discrete_energy_table.py`.
* `PhotonTable` / `PhotonTable.query` embed `PhotonTableQuery.query` from
  `tools/photon_table/query_photon_table.py`.
* the `blend*` functions embed the trilinear corner blend of
  `PhotonTableQuery.query` (lines 60-80) in each possible axis order.
* `avgCreate3d` embeds `AveragePhotonTable3D.create_3d_table` from
  `tools/table_generation/create_average_3d_table.py`, and `denCreate3d`
  embeds `DensityPhotonTable3D.create_3d_table` from
  `tools/table_generation/create_density_3d_table.py`.
* `sortedEnergies`, `rawLayer` and `discreteStack` embed
  `DiscreteEnergy3DTableBuilder.create_3d_table` from
  `tools/photon_table/discrete_energy_3d_builder.py`; `discreteStackE` is the
  same assembly with numpy's broadcast check on the stacking assignment made
  explicit.
* `multiDims` / `multiValues` / `multiTotalPhotons` embed
  `MultiEnergyPhotonTable3D.create_3d_table` and `save_table` from
  `tools/create_multi_energy_3d_table.py` (histogram-bin mode).
* `create2dFromPairs` and `stackTables` embed
  `DiscreteEnergyTableBuilder.create_2d_table_from_file` and
  `create_3d_table_from_2d_stack` from
  `tools/photon_table/create_discrete_energy_table.py`.
* `DETable.queryE` embeds `DiscreteEnergyTableQuery.query` once more, with
  numpy's bounds-checked indexing made explicit (`Except`) and with the
  energy coordinate drawn from `XE`, rationals extended by NaN and the two
  infinities with IEEE comparison behaviour.

Machine floats are modelled by `ℚ`; all index arithmetic keeps Python's
clamping behaviour (negative intermediate indices that Python clamps to 0
coincide with truncated `Nat` subtraction at every call site, as noted
inline).
-/

/-- `np.searchsorted(l, v)` (left side) on a sorted list: the number of
entries strictly below `v`. -/
def countLt (l : List ℚ) (v : ℚ) : Nat := l.countP (fun x => decide (x < v))

/-- `np.searchsorted(l, v, side='right')` on a sorted list: the number of
entries at most `v`. -/
def countLE (l : List ℚ) (v : ℚ) : Nat := l.countP (fun x => decide (x ≤ v))

/-- A 2D (angle × distance) array of rationals, indexed by bin. -/
abbrev Grid2 := Nat → Nat → ℚ

/-- A 3D (energy × angle × distance) array of rationals, indexed by bin. -/
abbrev Grid3 := Nat → Nat → Nat → ℚ

/-- Sum of an `na × nd` 2D array, `arr.sum()` over the stored shape. -/
def sum2 (na nd : Nat) (f : Grid2) : ℚ :=
  Finset.sum (Finset.range na) (fun j => Finset.sum (Finset.range nd) (fun m => f j m))

/-- Sum of an `ne × na × nd` 3D array, `arr.sum()` over the stored shape. -/
def sum3 (ne na nd : Nat) (f : Grid3) : ℚ :=
  Finset.sum (Finset.range ne) (fun i => sum2 na nd (f i))

/-- The in-memory data of `DiscreteEnergyTableQuery`: the discrete energy
layer centers, the shared angle/distance bin edges and centers, and the
stacked 3D histogram. -/
structure DETable where
  energy_centers : List ℚ
  angle_edges : List ℚ
  angle_centers : List ℚ
  distance_edges : List ℚ
  distance_centers : List ℚ
  values : Grid3

/-- The axis-location block that `_query_2d_layer` repeats for the angle
(lines 96-118) and distance (lines 120-142) axes: clamp to the boundary bin
when the query is outside the edge range, otherwise bracket via
`searchsorted(edges[1:], v)` and weight between the two bin centers.
Python's `idx_low = idx_high - 1` clamped below at 0 is `Nat` subtraction;
its clamp of `idx_high` at `len(centers) - 1` is `min`. -/
def locate (edges centers : List ℚ) (v : ℚ) : Nat × Nat × ℚ :=
  if v ≤ edges.getD 0 0 then (0, 0, 0)
  else if edges.getD (edges.length - 1) 0 ≤ v then
    (centers.length - 1, centers.length - 1, 0)
  else
    let hi0 := countLt (List.drop 1 edges) v
    let lo := hi0 - 1
    let hi := min hi0 (centers.length - 1)
    let cl := centers.getD lo 0
    let ch := centers.getD hi 0
    (lo, hi, if cl < ch then (v - cl) / (ch - cl) else 0)

/-- The bilinear corner blend of `_query_2d_layer` (lines 144-157): blend the
four corner values first along the angle axis, then along distance. -/
def DETable.bilin (t : DETable) (eidx : Nat) (la ld : Nat × Nat × ℚ) : ℚ :=
  (t.values eidx la.1 ld.1 * (1 - la.2.2) + t.values eidx la.2.1 ld.1 * la.2.2)
      * (1 - ld.2.2)
    + (t.values eidx la.1 ld.2.1 * (1 - la.2.2) + t.values eidx la.2.1 ld.2.1 * la.2.2)
      * ld.2.2

/-- `DiscreteEnergyTableQuery._query_2d_layer`: bilinear interpolation over
one energy layer. -/
def DETable.query2dLayer (t : DETable) (eidx : Nat) (a d : ℚ) : ℚ :=
  t.bilin eidx (locate t.angle_edges t.angle_centers a)
    (locate t.distance_edges t.distance_centers d)

/-- `DiscreteEnergyTableQuery.query` (lines 44-89): clamp the energy to the
first/last stored layer, otherwise bracket via
`searchsorted(energy_centers, e)` and blend the two bracketing layers. -/
def DETable.query (t : DETable) (e a d : ℚ) : ℚ :=
  if e ≤ t.energy_centers.getD 0 0 then t.query2dLayer 0 a d
  else if t.energy_centers.getD (t.energy_centers.length - 1) 0 ≤ e then
    t.query2dLayer (t.energy_centers.length - 1) a d
  else
    let hi := countLt t.energy_centers e
    let lo := hi - 1
    let w := (e - t.energy_centers.getD lo 0)
      / (t.energy_centers.getD hi 0 - t.energy_centers.getD lo 0)
    if w = 0 then t.query2dLayer lo a d
    else t.query2dLayer lo a d * (1 - w) + t.query2dLayer hi a d * w

/-- The in-memory data of `PhotonTableQuery`: per-axis bin edges, the metadata
ranges, the 3D histogram and its shape. -/
structure PhotonTable where
  energy_edges : List ℚ
  angle_edges : List ℚ
  distance_edges : List ℚ
  energy_range : ℚ × ℚ
  angle_range : ℚ × ℚ
  distance_range : ℚ × ℚ
  shape : Nat × Nat × Nat
  histogram : Grid3

/-- `PhotonTableQuery.query` (lines 33-80): return `0.0` outside the metadata
ranges, otherwise take `searchsorted(edges, v) - 1` clamped into
`[0, bins - 2]` on each axis and blend the 8 corners, distance first, then
angle, then energy.  Python's `max(0, min(idx, bins-2))` on a possibly
negative `idx` equals the truncated `Nat` computation used here. -/
def PhotonTable.query (t : PhotonTable) (e a d : ℚ) : ℚ :=
  if e < t.energy_range.1 ∨ t.energy_range.2 < e
      ∨ a < t.angle_range.1 ∨ t.angle_range.2 < a
      ∨ d < t.distance_range.1 ∨ t.distance_range.2 < d then 0
  else
    let ei := min (countLt t.energy_edges e - 1) (t.shape.1 - 2)
    let ai := min (countLt t.angle_edges a - 1) (t.shape.2.1 - 2)
    let di := min (countLt t.distance_edges d - 1) (t.shape.2.2 - 2)
    let ef := (e - t.energy_edges.getD ei 0)
      / (t.energy_edges.getD (ei + 1) 0 - t.energy_edges.getD ei 0)
    let af := (a - t.angle_edges.getD ai 0)
      / (t.angle_edges.getD (ai + 1) 0 - t.angle_edges.getD ai 0)
    let df := (d - t.distance_edges.getD di 0)
      / (t.distance_edges.getD (di + 1) 0 - t.distance_edges.getD di 0)
    let c00 := t.histogram ei ai di * (1 - df) + t.histogram ei ai (di + 1) * df
    let c01 := t.histogram ei (ai + 1) di * (1 - df)
      + t.histogram ei (ai + 1) (di + 1) * df
    let c10 := t.histogram (ei + 1) ai di * (1 - df)
      + t.histogram (ei + 1) ai (di + 1) * df
    let c11 := t.histogram (ei + 1) (ai + 1) di * (1 - df)
      + t.histogram (ei + 1) (ai + 1) (di + 1) * df
    let c0 := c00 * (1 - af) + c01 * af
    let c1 := c10 * (1 - af) + c11 * af
    c0 * (1 - ef) + c1 * ef

/-- The trilinear corner blend of `PhotonTableQuery.query` lines 70-79 as a
standalone function of the 8 corner values and the three fractional weights:
distance first, then angle, then energy.  Corner `cEAD` holds the value at
energy offset `E`, angle offset `A`, distance offset `D`. -/
def blendDAE (c000 c001 c010 c011 c100 c101 c110 c111 df af ef : ℚ) : ℚ :=
  let c00 := c000 * (1 - df) + c001 * df
  let c01 := c010 * (1 - df) + c011 * df
  let c10 := c100 * (1 - df) + c101 * df
  let c11 := c110 * (1 - df) + c111 * df
  let c0 := c00 * (1 - af) + c01 * af
  let c1 := c10 * (1 - af) + c11 * af
  c0 * (1 - ef) + c1 * ef

/-- The same blend with the axes consumed in the opposite order: energy
first, then angle, then distance. -/
def blendEAD (c000 c001 c010 c011 c100 c101 c110 c111 df af ef : ℚ) : ℚ :=
  let d00 := c000 * (1 - ef) + c100 * ef
  let d01 := c001 * (1 - ef) + c101 * ef
  let d10 := c010 * (1 - ef) + c110 * ef
  let d11 := c011 * (1 - ef) + c111 * ef
  let d0 := d00 * (1 - af) + d10 * af
  let d1 := d01 * (1 - af) + d11 * af
  d0 * (1 - df) + d1 * df

/-- The same blend, angle first, then distance, then energy. -/
def blendADE (c000 c001 c010 c011 c100 c101 c110 c111 df af ef : ℚ) : ℚ :=
  let a00 := c000 * (1 - af) + c010 * af
  let a01 := c001 * (1 - af) + c011 * af
  let a10 := c100 * (1 - af) + c110 * af
  let a11 := c101 * (1 - af) + c111 * af
  let a0 := a00 * (1 - df) + a01 * df
  let a1 := a10 * (1 - df) + a11 * df
  a0 * (1 - ef) + a1 * ef

/-- The same blend, angle first, then energy, then distance. -/
def blendAED (c000 c001 c010 c011 c100 c101 c110 c111 df af ef : ℚ) : ℚ :=
  let a00 := c000 * (1 - af) + c010 * af
  let a01 := c001 * (1 - af) + c011 * af
  let a10 := c100 * (1 - af) + c110 * af
  let a11 := c101 * (1 - af) + c111 * af
  let a0 := a00 * (1 - ef) + a10 * ef
  let a1 := a01 * (1 - ef) + a11 * ef
  a0 * (1 - df) + a1 * df

/-- The same blend, distance first, then energy, then angle. -/
def blendDEA (c000 c001 c010 c011 c100 c101 c110 c111 df af ef : ℚ) : ℚ :=
  let c00 := c000 * (1 - df) + c001 * df
  let c01 := c010 * (1 - df) + c011 * df
  let c10 := c100 * (1 - df) + c101 * df
  let c11 := c110 * (1 - df) + c111 * df
  let e0 := c00 * (1 - ef) + c10 * ef
  let e1 := c01 * (1 - ef) + c11 * ef
  e0 * (1 - af) + e1 * af

/-- The same blend, energy first, then distance, then angle. -/
def blendEDA (c000 c001 c010 c011 c100 c101 c110 c111 df af ef : ℚ) : ℚ :=
  let d00 := c000 * (1 - ef) + c100 * ef
  let d01 := c001 * (1 - ef) + c101 * ef
  let d10 := c010 * (1 - ef) + c110 * ef
  let d11 := c011 * (1 - ef) + c111 * ef
  let e0 := d00 * (1 - df) + d01 * df
  let e1 := d10 * (1 - df) + d11 * df
  e0 * (1 - af) + e1 * af

/-- Well-formedness of one (edges, centers) axis pair as produced by the
table builders: `len(edges) = len(centers) + 1`, at least one bin, each
center strictly inside its bin, and strictly increasing edges. -/
def axisWF (edges centers : List ℚ) : Prop :=
  edges.length = centers.length + 1 ∧ 0 < centers.length ∧
  (∀ i, i < centers.length →
    edges.getD i 0 < centers.getD i 0 ∧ centers.getD i 0 < edges.getD (i + 1) 0) ∧
  edges.Pairwise (· < ·)

/-- Well-formedness of a loaded discrete-energy table: at least one strictly
increasing energy layer and well-formed angle/distance axes. -/
def DETable.wf (t : DETable) : Prop :=
  t.energy_centers.Pairwise (· < ·) ∧ 0 < t.energy_centers.length ∧
  axisWF t.angle_edges t.angle_centers ∧ axisWF t.distance_edges t.distance_centers

instance (edges centers : List ℚ) : Decidable (axisWF edges centers) := by
  unfold axisWF; infer_instance

instance (t : DETable) : Decidable t.wf := by
  unfold DETable.wf; infer_instance

/-- The output of `AveragePhotonTable3D.create_3d_table`: the saved energy
coordinate axis, the raw-count table and the per-event-average table. -/
structure AvgResult where
  energyAxis : List ℚ
  photonTable : Nat → Grid2
  averageTable : Nat → Grid2

/-- `AveragePhotonTable3D.create_3d_table` (lines 91-142).  `files e` models
reading `{e}MeV/output.root`: `none` when the file or its
`PhotonHist_AngleDistance` histogram is missing, otherwise
`some (n_events, counts)`.  The 3D arrays are pre-allocated as zeros over the
pre-declared `energy_values` list; a failed energy leaves its layer zero and
keeps its place on the energy axis (`bin_edges[0] = np.array(energy_values)`).
The histogram shape is shared by all files (500 × 500 in the source), so the
2D grids are kept as total functions. -/
def avgCreate3d (files : ℚ → Option (ℚ × Grid2)) (energies : List ℚ) : AvgResult :=
  { energyAxis := energies
    photonTable := fun i j m =>
      if i < energies.length then
        match files (energies.getD i 0) with
        | some (_, c) => c j m
        | none => 0
      else 0
    averageTable := fun i j m =>
      if i < energies.length then
        match files (energies.getD i 0) with
        | some (n, c) => c j m / n
        | none => 0
      else 0 }

/-- The output of `DensityPhotonTable3D.create_3d_table`: raw counts,
per-event averages, and solid-angle densities. -/
structure DenResult where
  energyAxis : List ℚ
  photonTable : Nat → Grid2
  normalizedTable : Nat → Grid2
  densityTable : Nat → Grid2

/-- `DensityPhotonTable3D.create_3d_table` (lines 127-188).  Same ingestion
model as `avgCreate3d`; the density layer divides the per-event average by
the per-bin solid-angle area and zeroes every bin whose area is below
`1e-10` (lines 180-182).  `binAreas` is the `calculate_bin_areas` output
(`2π·sin(center)·Δangle ⊗ Δdistance`, lines 61-92), kept as a parameter
because it is transcendental in the bin edges. -/
def denCreate3d (files : ℚ → Option (ℚ × Grid2)) (energies : List ℚ)
    (binAreas : Grid2) : DenResult :=
  { energyAxis := energies
    photonTable := (avgCreate3d files energies).photonTable
    normalizedTable := (avgCreate3d files energies).averageTable
    densityTable := fun i j m =>
      if i < energies.length then
        match files (energies.getD i 0) with
        | some (n, c) =>
          if binAreas j m < 1 / 10 ^ 10 then 0 else c j m / n / binAreas j m
        | none => 0
      else 0 }

/-- `sorted(self.energy_histograms.keys())` in
`DiscreteEnergy3DTableBuilder.create_3d_table` (line 143): the energies of
the successfully loaded histograms, sorted ascending. -/
def sortedEnergies (loaded : List (ℚ × Grid2)) : List ℚ :=
  (loaded.map Prod.fst).mergeSort (fun x y => decide (x ≤ y))

/-- Histogram lookup in the `energy_histograms` dict. -/
def histLookup (loaded : List (ℚ × Grid2)) (e : ℚ) : Grid2 :=
  match loaded.find? (fun p => decide (p.1 = e)) with
  | some p => p.2
  | none => fun _ _ => 0

/-- Layer `i` of the stacked (pre-normalization) 3D array of
`DiscreteEnergy3DTableBuilder.create_3d_table` (lines 150-158): the loaded
2D histogram of the `i`-th sorted energy written into a zero array of shape
`(angle_bins, distance_bins)`. -/
def rawLayer (na nd : Nat) (loaded : List (ℚ × Grid2)) (i : Nat) : Grid2 :=
  fun j m =>
    if j < na ∧ m < nd then histLookup loaded ((sortedEnergies loaded).getD i 0) j m
    else 0

/-- Layer `i` of the finished `DiscreteEnergy3DTableBuilder` table: after
stacking, every layer with a positive total is divided by that total
(lines 160-164), turning it into a per-layer probability distribution. -/
def discreteStack (na nd : Nat) (loaded : List (ℚ × Grid2)) (i : Nat) : Grid2 :=
  fun j m =>
    if 0 < sum2 na nd (rawLayer na nd loaded i) then
      rawLayer na nd loaded i j m / sum2 na nd (rawLayer na nd loaded i)
    else rawLayer na nd loaded i j m

/-- A loaded 2D histogram together with its shape, as returned by
`hist.values()` for one energy file. -/
structure Hist2D where
  na : Nat
  nd : Nat
  val : Grid2

instance : Inhabited Hist2D := ⟨⟨0, 0, fun _ _ => 0⟩⟩

/-- Errors that abort `DiscreteEnergy3DTableBuilder.create_3d_table`. -/
inductive BuildError where
  | noHistograms : BuildError
  | broadcastError : BuildError
deriving DecidableEq

/-- Shape-aware model of `DiscreteEnergy3DTableBuilder.load_all_histograms` +
`create_3d_table`: bin dimensions come from the first successfully loaded
histogram (lines 121-125); `load_all_histograms` never validates later
shapes, so the stacking assignment `table_3d[i, :, :] = histogram_2d`
(line 155) raises a numpy broadcast error — aborting the whole build —
whenever a later histogram's shape is neither equal to the established one
nor broadcastable to it (a dimension of size 1).  On success each layer is
normalized by its total as in `discreteStack`. -/
def discreteStackE (loaded : List (ℚ × Hist2D)) : Except BuildError (Nat → Grid2) :=
  match loaded with
  | [] => .error .noHistograms
  | first :: _ =>
    let na := first.2.na
    let nd := first.2.nd
    if loaded.all (fun p => (p.2.na = na ∨ p.2.na = 1) ∧ (p.2.nd = nd ∨ p.2.nd = 1)) then
      .ok (discreteStack na nd
        (loaded.map (fun p => (p.1, fun j m =>
          p.2.val (if p.2.na = 1 then 0 else j) (if p.2.nd = 1 then 0 else m)))))
    else .error .broadcastError

/-- Bin dimensions established by `MultiEnergyPhotonTable3D.create_3d_table`
in histogram-bin mode (lines 174-208): the first file's histogram shape
(falling back to the configured `(angle_bins, distance_bins)` when there are
no files). -/
def multiDims (a0 d0 : Nat) (files : List Hist2D) : Nat × Nat :=
  match files with
  | [] => (a0, d0)
  | h :: _ => (h.na, h.nd)

/-- The stacked 3D array of `MultiEnergyPhotonTable3D.create_3d_table`
(lines 179-208, histogram-bin mode): layer `idx` holds `counts` when the
file's histogram shape matches the established dimensions, and stays zero —
with a warning, the build continuing — when a later layer's shape
mismatches (lines 192-194). -/
def multiValues (a0 d0 : Nat) (files : List Hist2D) : Nat → Grid2 :=
  fun i j m =>
    let dims := multiDims a0 d0 files
    if i < files.length ∧ ((files.getD i default).na, (files.getD i default).nd) = dims
        ∧ j < dims.1 ∧ m < dims.2 then
      (files.getD i default).val j m
    else 0

/-- The `total_photons` metadata written by
`MultiEnergyPhotonTable3D.save_table` (line 248): `photon_table.sum()`. -/
def multiTotalPhotons (a0 d0 : Nat) (files : List Hist2D) : ℚ :=
  sum3 files.length (multiDims a0 d0 files).1 (multiDims a0 d0 files).2
    (multiValues a0 d0 files)

/-- Insertion of a value into a sorted list, the inner step of `sortQ`. -/
def insertSorted (x : ℚ) : List ℚ → List ℚ
  | [] => [x]
  | y :: ys => if x ≤ y then x :: y :: ys else y :: insertSorted x ys

/-- Ascending sort of a rational list (insertion sort); used to model the
order statistics underlying `np.percentile`. -/
def sortQ : List ℚ → List ℚ
  | [] => []
  | x :: xs => insertSorted x (sortQ xs)

/-- `np.percentile(l, 95)` with the default linear interpolation: the value
at virtual position `0.95 * (n - 1)` of the sorted data. -/
def percentile95 (l : List ℚ) : ℚ :=
  let s := sortQ l
  let pos : ℚ := (19 / 20) * ((s.length : ℚ) - 1)
  let k : Nat := (Int.floor pos).toNat
  s.getD k 0 + (pos - (k : ℚ)) * (s.getD (k + 1) 0 - s.getD k 0)

/-- `np.linspace(lo, hi, n + 1)`: the `n + 1` equally spaced bin edges used
by `np.histogram2d` for `n` bins over `(lo, hi)`. -/
def linspaceQ (lo hi : ℚ) (n : Nat) : List ℚ :=
  (List.range (n + 1)).map (fun i => lo + (hi - lo) * (i : ℚ) / (n : ℚ))

/-- `np.min` of a list of rationals (0 on the empty list, never hit by the
call sites). -/
def listMinQ : List ℚ → ℚ
  | [] => 0
  | x :: xs => xs.foldl min x

/-- `np.max` of a list of rationals. -/
def listMaxQ : List ℚ → ℚ
  | [] => 0
  | x :: xs => xs.foldl max x

/-- The bin index assigned to `v` by `np.histogram2d` for the given edges:
`searchsorted(edges, v, side='right') - 1`, with a value equal to the last
edge placed in the last bin and out-of-range values dropped. -/
def histBinQ (edges : List ℚ) (v : ℚ) : Option Nat :=
  if v < edges.getD 0 0 then none
  else if edges.getD (edges.length - 1) 0 < v then none
  else if edges.getD (edges.length - 1) 0 ≤ v then some (edges.length - 2)
  else some (countLE edges v - 1)

/-- `np.histogram2d` over explicit edge lists: the count of sample pairs
falling in bin `(i, j)`. -/
def hist2 (aedges dedges : List ℚ) (pts : List (ℚ × ℚ)) : Grid2 :=
  fun i j =>
    ((pts.countP (fun p =>
      decide (histBinQ aedges p.1 = some i ∧ histBinQ dedges p.2 = some j))) : ℚ)

/-- `DiscreteEnergyTableBuilder.create_2d_table_from_file` (lines 27-144)
from the point where the per-photon opening angles and distances have been
computed: the input is, per event, the list of
`(arccos(clip(dir·ẑ)), ‖pos‖)` pairs of its photons (lines 52-88; the
transcendental geometry producing the pairs is the input here).  The builder
counts every photon read (`total_photons`), subsamples events with more than
1000 photons (the random choice of lines 71-75 modelled as a prefix — the
count, not the identity, of the kept photons is what the accounting uses),
drops photons beyond the 95th percentile of distance (lines 102-109), and
histograms the survivors over `(angle_bins, distance_bins)` bins spanning
the filtered angle range and `(0, distance_95th)` (lines 111-119).  Returns
`none` when no photons were found, else the 2D histogram and the
`total_photons` metadata entry. -/
def create2dFromPairs (abins dbins : Nat) (events : List (List (ℚ × ℚ))) :
    Option (Grid2 × ℚ) :=
  let total : ℚ := ((events.map List.length).sum : Nat)
  let pairs := (events.map (fun ev => if 1000 < ev.length then ev.take 1000 else ev)).flatten
  if pairs.isEmpty then none
  else
    let p95 := percentile95 (pairs.map Prod.snd)
    let kept := pairs.filter (fun p => decide (p.2 ≤ p95))
    let aedges := linspaceQ (listMinQ (kept.map Prod.fst)) (listMaxQ (kept.map Prod.fst)) abins
    let dedges := linspaceQ 0 p95 dbins
    some (hist2 aedges dedges kept, total)

/-- `DiscreteEnergyTableBuilder.create_3d_table_from_2d_stack`
(lines 146-205): stack the per-energy 2D tables in sorted energy order and
record as `total_photons` the sum of the per-energy `total_photons` metadata
entries (line 194) — the photons read, not the photons histogrammed. -/
def stackTables (tabs : List (ℚ × Grid2 × ℚ)) : (Nat → Grid2) × ℚ :=
  ((fun i =>
      match tabs.find? (fun p => decide (p.1 =
          ((tabs.map Prod.fst).mergeSort (fun x y => decide (x ≤ y))).getD i 0)) with
      | some p => p.2.1
      | none => fun _ _ => 0),
    (tabs.map (fun p => p.2.2)).sum)

/-- Exceptions a query can raise.  `invalidQuery` is the validation error the
specification prescribes for NaN/∞ coordinates; `indexError` is numpy's
out-of-bounds indexing error. -/
inductive QueryError where
  | invalidQuery : QueryError
  | indexError : QueryError
deriving DecidableEq

/-- Bounds-checked list indexing: numpy raises `IndexError` for an index of
at least the array length (negative indices never reach an access in the
embedded code paths, as the inline notes on `locate` explain). -/
def getQ (l : List ℚ) (i : Nat) : Except QueryError ℚ :=
  if i < l.length then .ok (l.getD i 0) else .error .indexError

/-- A float-valued energy coordinate: finite, NaN, or ±∞. -/
inductive XE where
  | fin (q : ℚ) : XE
  | nan : XE
  | pinf : XE
  | ninf : XE

/-- IEEE `c <= e` for a float coordinate: every comparison with NaN is
false. -/
def xleL (c : ℚ) (e : XE) : Bool :=
  match e with
  | .fin q => decide (c ≤ q)
  | .nan => false
  | .pinf => true
  | .ninf => false

/-- IEEE `e <= c` for a float coordinate. -/
def xleR (e : XE) (c : ℚ) : Bool :=
  match e with
  | .fin q => decide (q ≤ c)
  | .nan => false
  | .pinf => false
  | .ninf => true

/-- `np.searchsorted(l, e)` for a float key on a finite sorted array: NaN and
`+∞` sort past every entry, `-∞` before every entry. -/
def xCountLt (l : List ℚ) (e : XE) : Nat :=
  match e with
  | .fin q => countLt l q
  | .nan => l.length
  | .pinf => l.length
  | .ninf => 0

/-- `locate` with numpy's bounds-checked indexing made explicit; used by the
error-aware query below. -/
def locateE (edges centers : List ℚ) (v : ℚ) : Except QueryError (Nat × Nat × ℚ) :=
  match getQ edges 0 with
  | .error err => .error err
  | .ok e0 =>
    if v ≤ e0 then .ok (0, 0, 0)
    else
      match getQ edges (edges.length - 1) with
      | .error err => .error err
      | .ok elast =>
        if elast ≤ v then .ok (centers.length - 1, centers.length - 1, 0)
        else
          let hi0 := countLt (List.drop 1 edges) v
          let lo := hi0 - 1
          let hi := min hi0 (centers.length - 1)
          match getQ centers lo with
          | .error err => .error err
          | .ok cl =>
            match getQ centers hi with
            | .error err => .error err
            | .ok ch => .ok (lo, hi, if cl < ch then (v - cl) / (ch - cl) else 0)

/-- `_query_2d_layer` with bounds-checked axis indexing. -/
def DETable.query2dE (t : DETable) (eidx : Nat) (a d : ℚ) : Except QueryError ℚ :=
  match locateE t.angle_edges t.angle_centers a with
  | .error err => .error err
  | .ok la =>
    match locateE t.distance_edges t.distance_centers d with
    | .error err => .error err
    | .ok ld => .ok (t.bilin eidx la ld)

/-- `DiscreteEnergyTableQuery.query` with numpy's bounds-checked indexing
made explicit and the energy coordinate allowed to be NaN or ±∞ (IEEE
comparison semantics; a NaN energy passes both boundary checks, is sorted
past the last center by `searchsorted`, and the fetch
`energy_centers[energy_idx_high]` of line 78 then goes out of bounds).
Angle and distance are finite here; the `histogram_3d` fetches stay in
bounds whenever the centers list is nonempty, so the 3D array is kept as a
total function. -/
def DETable.queryE (t : DETable) (e : XE) (a d : ℚ) : Except QueryError ℚ :=
  match getQ t.energy_centers 0 with
  | .error err => .error err
  | .ok c0 =>
    if xleR e c0 then t.query2dE 0 a d
    else
      match getQ t.energy_centers (t.energy_centers.length - 1) with
      | .error err => .error err
      | .ok clast =>
        if xleL clast e then t.query2dE (t.energy_centers.length - 1) a d
        else
          let hi := xCountLt t.energy_centers e
          let lo := hi - 1
          match getQ t.energy_centers lo with
          | .error err => .error err
          | .ok elow =>
            match getQ t.energy_centers hi with
            | .error err => .error err
            | .ok ehigh =>
              let w := match e with
                | .fin q => (q - elow) / (ehigh - elow)
                | _ => 0
              match t.query2dE lo a d with
              | .error err => .error err
              | .ok rlo =>
                match t.query2dE hi a d with
                | .error err => .error err
                | .ok rhi => .ok (if w = 0 then rlo else rlo * (1 - w) + rhi * w)

/-- Values of a small two-layer discrete-energy table: 8 photons in bin
`(0,0,0)` and 6 in bin `(1,1,0)`. -/
def exDETvalues : Grid3 := fun k j m =>
  if k = 0 ∧ j = 0 ∧ m = 0 then 8 else if k = 1 ∧ j = 1 ∧ m = 0 then 6 else 0

/-- A small well-formed discrete-energy table: layers at 100 and 200 MeV,
two angle bins with edges `[0,2,4]` (centers `[1,3]`), two distance bins
with edges `[0,2,4]` (centers `[1,3]`). -/
def exDET : DETable :=
  ⟨[100, 200], [0, 2, 4], [1, 3], [0, 2, 4], [1, 3], exDETvalues⟩

/-- Values of a single-layer table: 10 photons in bin `(0,0,0)`, nothing
elsewhere — everywhere non-negative. -/
def exNegValues : Grid3 := fun k j m => if k = 0 ∧ j = 0 ∧ m = 0 then 10 else 0

/-- A well-formed single-energy table with two angle bins (edges `[0,2,4]`,
centers `[1,3]`) and one distance bin (edges `[0,2]`, center `[1]`), used to
exhibit a negative interpolation result. -/
def exNegDET : DETable :=
  ⟨[100], [0, 2, 4], [1, 3], [0, 2], [1], exNegValues⟩

/-- A small `PhotonTableQuery` table: edges `[0,1,2]` on every axis (two bins
each), metadata ranges `(0,2)`, shape `(2,2,2)`, and 8 photons stored in bin
`(0,0,0)`. -/
def exPQ : PhotonTable :=
  ⟨[0, 1, 2], [0, 1, 2], [0, 1, 2], (0, 2), (0, 2), (0, 2), (2, 2, 2),
    fun k j m => if k = 0 ∧ j = 0 ∧ m = 0 then 8 else 0⟩

/-- A file-system model for the average/density builders: the 100 MeV file
is missing, the 200 MeV file holds 10 events and a constant histogram. -/
def exAvgFiles : ℚ → Option (ℚ × Grid2) :=
  fun e => if e = 200 then some (10, fun _ _ => 4) else none

/-- Solid-angle bin areas with one near-degenerate bin: bin `(0,0)` has area
`1e-11`, below the `1e-10` guard, every other bin has area 2. -/
def exAreas : Grid2 := fun j m => if j = 0 ∧ m = 0 then 1 / 10 ^ 11 else 2

/-- One loaded discrete-builder histogram with 4 photons in bin `(0,0)`. -/
def exLoadedPos : List (ℚ × Grid2) :=
  [(100, fun j m => if j = 0 ∧ m = 0 then 4 else 0)]

/-- One loaded discrete-builder histogram that is entirely empty. -/
def exLoadedZero : List (ℚ × Grid2) := [(100, fun _ _ => 0)]

/-- Two loaded histograms for the multi-energy assembler: the first (which
establishes the 2 × 2 bin shape) and a second whose 3 × 2 shape
mismatches. -/
def exMultiFiles : List Hist2D :=
  [⟨2, 2, fun j m => ((j * 2 + m + 1 : Nat) : ℚ)⟩, ⟨3, 2, fun _ _ => 7⟩]

/-- Two loaded histograms for `DiscreteEnergy3DTableBuilder`: the first
establishes a 2 × 2 shape, the second has the non-broadcastable shape
3 × 2. -/
def exLoadedE : List (ℚ × Hist2D) :=
  [(100, ⟨2, 2, fun _ _ => 1⟩), (200, ⟨3, 2, fun _ _ => 1⟩)]

/-- One simulated event with three photons, as (opening angle, distance)
pairs: all emitted along the primary direction (angle `arccos(1) = 0`),
at distances 1, 1 and 100 mm (positions on the track axis, so the norms are
exact). -/
def exC5events : List (List (ℚ × ℚ)) := [[(0, 1), (0, 1), (0, 100)]]

/-- The 2D table and `total_photons` metadata the discrete-energy builder
derives from `exC5events` with one angle and one distance bin. -/
def exC5tab : Grid2 × ℚ := (create2dFromPairs 1 1 exC5events).getD (fun _ _ => 0, 0)

/-- The stacked single-energy 3D table built from `exC5tab` at 100 MeV. -/
def exC5stack : (Nat → Grid2) × ℚ := stackTables [(100, exC5tab.1, exC5tab.2)]

theorem countLt_le_length (l : List ℚ) (v : ℚ) : countLt l v ≤ l.length :=
  List.countP_le_length _

/-- On a sorted list, `searchsorted` splits the indices exactly: entry `i` is
below `v` iff `i` lies below the insertion point. -/
theorem countLt_char (l : List ℚ) (v : ℚ) (hl : l.Pairwise (· ≤ ·)) :
    ∀ i, i < l.length → (l.getD i 0 < v ↔ i < countLt l v) := by
  induction l with
  | nil => intro i hi; simp at hi
  | cons x xs ih =>
    have hx : ∀ y ∈ xs, x ≤ y := (List.pairwise_cons.mp hl).1
    have hxs : xs.Pairwise (· ≤ ·) := (List.pairwise_cons.mp hl).2
    intro i hi
    by_cases hxv : x < v
    · have hc : countLt (x :: xs) v = countLt xs v + 1 := by
        simp [countLt, List.countP_cons, hxv]
      cases i with
      | zero => simpa [hc] using hxv
      | succ j =>
        have hj : j < xs.length := by simpa using hi
        have hiff := ih hxs j hj
        simp only [List.getD_cons_succ, hc]
        constructor
        · intro h; exact Nat.succ_lt_succ (hiff.mp h)
        · intro h; exact hiff.mpr (Nat.lt_of_succ_lt_succ h)
    · have hzero : countLt (x :: xs) v = 0 := by
        have hall : ∀ y ∈ x :: xs, ¬ y < v := by
          intro y hy
          rcases List.mem_cons.mp hy with rfl | hy'
          · exact hxv
          · exact fun hlt => hxv (lt_of_le_of_lt (hx y hy') hlt)
        refine List.countP_eq_zero.mpr ?_
        intro a ha
        simpa using hall a ha
      cases i with
      | zero => simp [hzero, hxv]
      | succ j =>
        have hj : j < xs.length := by simpa using hi
        have hmem : xs.getD j 0 ∈ xs := by
          rw [List.getD_eq_getElem xs 0 hj]
          exact List.getElem_mem hj
        have hnot : ¬ xs.getD j 0 < v :=
          fun hlt => hxv (lt_of_le_of_lt (hx _ hmem) hlt)
        simp only [hzero, List.getD_cons_succ]
        exact iff_of_false hnot (Nat.not_lt_zero _)

theorem lt_countLt (l : List ℚ) (v : ℚ) (hl : l.Pairwise (· ≤ ·)) (i : Nat)
    (hi : i < l.length) (h : l.getD i 0 < v) : i < countLt l v :=
  (countLt_char l v hl i hi).mp h

theorem countLt_le (l : List ℚ) (v : ℚ) (hl : l.Pairwise (· ≤ ·)) (i : Nat)
    (hi : i < l.length) (h : v ≤ l.getD i 0) : countLt l v ≤ i := by
  by_contra hcon
  push_neg at hcon
  exact absurd ((countLt_char l v hl i hi).mpr hcon) (not_lt.mpr h)

theorem getD_lt_getD (l : List ℚ) (hl : l.Pairwise (· < ·)) (i j : Nat)
    (hij : i < j) (hj : j < l.length) : l.getD i 0 < l.getD j 0 := by
  have hi : i < l.length := Nat.lt_trans hij hj
  rw [List.getD_eq_getElem l 0 hi, List.getD_eq_getElem l 0 hj]
  exact List.pairwise_iff_getElem.mp hl i j hi hj hij

theorem getD_le_getD (l : List ℚ) (hl : l.Pairwise (· < ·)) (i j : Nat)
    (hij : i ≤ j) (hj : j < l.length) : l.getD i 0 ≤ l.getD j 0 := by
  rcases Nat.lt_or_eq_of_le hij with h | h
  · exact le_of_lt (getD_lt_getD l hl i j h hj)
  · rw [h]

theorem getD_drop_one (l : List ℚ) (i : Nat) :
    (List.drop 1 l).getD i 0 = l.getD (i + 1) 0 := by
  cases l with
  | nil => simp
  | cons x xs => simp

/-- Querying `locate` exactly at bin center `j` of a well-formed axis picks
out index `j`: blending any per-index quantity with the returned weight
collapses to its value at `j`. -/
theorem locate_center_blend (edges centers : List ℚ)
    (hwf : axisWF edges centers) (j : Nat) (hj : j < centers.length)
    (f : Nat → ℚ) :
    f (locate edges centers (centers.getD j 0)).1
        * (1 - (locate edges centers (centers.getD j 0)).2.2)
      + f (locate edges centers (centers.getD j 0)).2.1
        * (locate edges centers (centers.getD j 0)).2.2
      = f j := by
  obtain ⟨hlen, hpos, hintl, hpw⟩ := hwf
  have hji : j < edges.length := by omega
  have h1 : ¬ centers.getD j 0 ≤ edges.getD 0 0 :=
    not_le.mpr (lt_of_le_of_lt (getD_le_getD edges hpw 0 j (Nat.zero_le j) hji)
      (hintl j hj).1)
  have h2 : ¬ edges.getD (edges.length - 1) 0 ≤ centers.getD j 0 :=
    not_le.mpr (lt_of_lt_of_le (hintl j hj).2
      (getD_le_getD edges hpw (j + 1) (edges.length - 1) (by omega) (by omega)))
  have hdlen : (List.drop 1 edges).length = centers.length := by
    simp only [List.length_drop]; omega
  have hdpw : (List.drop 1 edges).Pairwise (· ≤ ·) :=
    (hpw.sublist (List.drop_sublist 1 edges)).imp le_of_lt
  have hcount : countLt (List.drop 1 edges) (centers.getD j 0) = j := by
    have hup : countLt (List.drop 1 edges) (centers.getD j 0) ≤ j := by
      apply countLt_le _ _ hdpw j (by omega)
      rw [getD_drop_one]
      exact le_of_lt (hintl j hj).2
    rcases Nat.eq_zero_or_pos j with hj0 | hjpos
    · omega
    · have hlow : j - 1 < countLt (List.drop 1 edges) (centers.getD j 0) := by
        apply lt_countLt _ _ hdpw (j - 1) (by omega)
        rw [getD_drop_one]
        have hj1e : j - 1 + 1 = j := by omega
        rw [hj1e]
        exact (hintl j hj).1
      omega
  rcases Nat.eq_zero_or_pos j with hj0 | hjpos
  · subst hj0
    have hloc : locate edges centers (centers.getD 0 0) = (0, 0, 0) := by
      unfold locate
      rw [if_neg h1, if_neg h2]
      simp only [hcount, Nat.zero_sub, Nat.zero_min, Prod.mk.injEq]
      exact ⟨trivial, trivial, if_neg (lt_irrefl _)⟩
    rw [hloc]
    ring
  · have hmin : min j (centers.length - 1) = j := by omega
    have hcl : centers.getD (j - 1) 0 < centers.getD j 0 := by
      have h1' := (hintl (j - 1) (by omega)).2
      have hj1e : j - 1 + 1 = j := by omega
      rw [hj1e] at h1'
      exact lt_trans h1' (hintl j hj).1
    have hw : (centers.getD j 0 - centers.getD (j - 1) 0)
        / (centers.getD j 0 - centers.getD (j - 1) 0) = 1 :=
      div_self (by linarith)
    have hloc : locate edges centers (centers.getD j 0) = (j - 1, j, 1) := by
      unfold locate
      rw [if_neg h1, if_neg h2]
      simp only [hcount, hmin]
      rw [if_pos hcl, hw]
    rw [hloc]
    ring

/-- `_query_2d_layer` evaluated at a pair of bin centers returns the stored
bin value. -/
theorem query2dLayer_center (t : DETable)
    (hA : axisWF t.angle_edges t.angle_centers)
    (hD : axisWF t.distance_edges t.distance_centers)
    (eidx j m : Nat) (hj : j < t.angle_centers.length)
    (hm : m < t.distance_centers.length) :
    t.query2dLayer eidx (t.angle_centers.getD j 0) (t.distance_centers.getD m 0)
      = t.values eidx j m := by
  unfold DETable.query2dLayer DETable.bilin
  have hd := locate_center_blend _ _ hD m hm
    (fun dm => t.values eidx
        (locate t.angle_edges t.angle_centers (t.angle_centers.getD j 0)).1 dm
        * (1 - (locate t.angle_edges t.angle_centers (t.angle_centers.getD j 0)).2.2)
      + t.values eidx
        (locate t.angle_edges t.angle_centers (t.angle_centers.getD j 0)).2.1 dm
        * (locate t.angle_edges t.angle_centers (t.angle_centers.getD j 0)).2.2)
  have ha := locate_center_blend _ _ hA j hj (fun aj => t.values eidx aj m)
  simp only [] at hd ha
  rw [hd, ha]

/-- `DiscreteEnergyTableQuery.query` evaluated exactly at stored layer `k`
reduces to the 2D query of that layer. -/
theorem query_at_energy_center (t : DETable)
    (hpw : t.energy_centers.Pairwise (· < ·)) (k : Nat)
    (hk : k < t.energy_centers.length) (a d : ℚ) :
    t.query (t.energy_centers.getD k 0) a d = t.query2dLayer k a d := by
  unfold DETable.query
  rcases Nat.eq_zero_or_pos k with hk0 | hkpos
  · subst hk0
    rw [if_pos le_rfl]
  · have h1 : ¬ t.energy_centers.getD k 0 ≤ t.energy_centers.getD 0 0 :=
      not_le.mpr (getD_lt_getD _ hpw 0 k hkpos hk)
    rw [if_neg h1]
    by_cases hklast : k = t.energy_centers.length - 1
    · subst hklast
      rw [if_pos le_rfl]
    · have h2 : ¬ t.energy_centers.getD (t.energy_centers.length - 1) 0
          ≤ t.energy_centers.getD k 0 :=
        not_le.mpr (getD_lt_getD _ hpw k (t.energy_centers.length - 1)
          (by omega) (by omega))
      rw [if_neg h2]
      have hcount : countLt t.energy_centers (t.energy_centers.getD k 0) = k := by
        have hup : countLt t.energy_centers (t.energy_centers.getD k 0) ≤ k :=
          countLt_le _ _ (hpw.imp le_of_lt) k hk le_rfl
        have hlow : k - 1 < countLt t.energy_centers (t.energy_centers.getD k 0) :=
          lt_countLt _ _ (hpw.imp le_of_lt) (k - 1) (by omega)
            (getD_lt_getD _ hpw (k - 1) k (by omega) hk)
        omega
      have hcl : t.energy_centers.getD (k - 1) 0 < t.energy_centers.getD k 0 :=
        getD_lt_getD _ hpw (k - 1) k (by omega) hk
      have hw : (t.energy_centers.getD k 0 - t.energy_centers.getD (k - 1) 0)
          / (t.energy_centers.getD k 0 - t.energy_centers.getD (k - 1) 0) = 1 :=
        div_self (by linarith)
      simp only [hcount, hw]
      rw [if_neg one_ne_zero]
      ring

/-- The bilinear corner blend of non-negative values with weights in `[0,1]`
is non-negative. -/
theorem bilin_nonneg (t : DETable) (eidx : Nat) (la ld : Nat × Nat × ℚ)
    (hv : ∀ i j m, 0 ≤ t.values i j m)
    (ha0 : 0 ≤ la.2.2) (ha1 : la.2.2 ≤ 1) (hd0 : 0 ≤ ld.2.2) (hd1 : ld.2.2 ≤ 1) :
    0 ≤ t.bilin eidx la ld := by
  unfold DETable.bilin
  have h1 : (0:ℚ) ≤ 1 - la.2.2 := by linarith
  have h2 : (0:ℚ) ≤ 1 - ld.2.2 := by linarith
  apply add_nonneg
  · exact mul_nonneg
      (add_nonneg (mul_nonneg (hv _ _ _) h1) (mul_nonneg (hv _ _ _) ha0)) h2
  · exact mul_nonneg
      (add_nonneg (mul_nonneg (hv _ _ _) h1) (mul_nonneg (hv _ _ _) ha0)) hd0

theorem getQ_ok (l : List ℚ) (i : Nat) (h : i < l.length) :
    getQ l i = .ok (l.getD i 0) := if_pos h

/-- On a well-formed axis every list access of the location block is in
bounds: the bounds-checked locator succeeds and agrees with `locate`. -/
theorem locateE_ok (edges centers : List ℚ) (hwf : axisWF edges centers) (v : ℚ) :
    locateE edges centers v = .ok (locate edges centers v) := by
  obtain ⟨hlen, hpos, hintl, hpw⟩ := hwf
  have h0 : 0 < edges.length := by omega
  have hlast : edges.length - 1 < edges.length := by omega
  have hhi0 : countLt (List.drop 1 edges) v ≤ centers.length := by
    have h := countLt_le_length (List.drop 1 edges) v
    simp only [List.length_drop] at h
    omega
  have hlo : countLt (List.drop 1 edges) v - 1 < centers.length := by omega
  have hhi : min (countLt (List.drop 1 edges) v) (centers.length - 1)
      < centers.length :=
    Nat.lt_of_le_of_lt (Nat.min_le_right _ _) (by omega)
  unfold locateE locate
  rw [getQ_ok _ _ h0]
  dsimp only
  by_cases hv1 : v ≤ edges.getD 0 0
  · rw [if_pos hv1, if_pos hv1]
  · rw [if_neg hv1, if_neg hv1, getQ_ok _ _ hlast]
    dsimp only
    by_cases hv2 : edges.getD (edges.length - 1) 0 ≤ v
    · rw [if_pos hv2, if_pos hv2]
    · rw [if_neg hv2, if_neg hv2, getQ_ok _ _ hlo, getQ_ok _ _ hhi]

/-- On well-formed axes the bounds-checked 2D layer query succeeds and agrees
with `_query_2d_layer`. -/
theorem query2dE_ok (t : DETable) (hA : axisWF t.angle_edges t.angle_centers)
    (hD : axisWF t.distance_edges t.distance_centers) (eidx : Nat) (a d : ℚ) :
    t.query2dE eidx a d = .ok (t.query2dLayer eidx a d) := by
  unfold DETable.query2dE DETable.query2dLayer
  rw [locateE_ok _ _ hA, locateE_ok _ _ hD]

/-- C9: For all eight corner values and all three interpolation weights in
[0, 1], the trilinear blend computed by interpolating along distance first,
then angle, then energy equals the blend computed in any other axis order —
the multilinear interpolation is commutative across axes. -/
theorem trilinear_blend_axis_order
    (c000 c001 c010 c011 c100 c101 c110 c111 df af ef : ℚ)
    (hdf0 : 0 ≤ df) (hdf1 : df ≤ 1) (haf0 : 0 ≤ af) (haf1 : af ≤ 1)
    (hef0 : 0 ≤ ef) (hef1 : ef ≤ 1) :
    blendDAE c000 c001 c010 c011 c100 c101 c110 c111 df af ef
        = blendEAD c000 c001 c010 c011 c100 c101 c110 c111 df af ef
    ∧ blendDAE c000 c001 c010 c011 c100 c101 c110 c111 df af ef
        = blendADE c000 c001 c010 c011 c100 c101 c110 c111 df af ef
    ∧ blendDAE c000 c001 c010 c011 c100 c101 c110 c111 df af ef
        = blendAED c000 c001 c010 c011 c100 c101 c110 c111 df af ef
    ∧ blendDAE c000 c001 c010 c011 c100 c101 c110 c111 df af ef
        = blendDEA c000 c001 c010 c011 c100 c101 c110 c111 df af ef
    ∧ blendDAE c000 c001 c010 c011 c100 c101 c110 c111 df af ef
        = blendEDA c000 c001 c010 c011 c100 c101 c110 c111 df af ef := by
  refine ⟨?_, ?_, ?_, ?_, ?_⟩ <;>
    · simp only [blendDAE, blendEAD, blendADE, blendAED, blendDEA, blendEDA]
      ring

/-- Witness for C9 at concrete corners `1..8` and weights
`(1/2, 1/3, 1/4)`. -/
theorem trilinear_blend_axis_order_witness :
    blendDAE 1 2 3 4 5 6 7 8 (1/2) (1/3) (1/4)
        = blendEAD 1 2 3 4 5 6 7 8 (1/2) (1/3) (1/4)
    ∧ blendDAE 1 2 3 4 5 6 7 8 (1/2) (1/3) (1/4)
        = blendADE 1 2 3 4 5 6 7 8 (1/2) (1/3) (1/4)
    ∧ blendDAE 1 2 3 4 5 6 7 8 (1/2) (1/3) (1/4)
        = blendAED 1 2 3 4 5 6 7 8 (1/2) (1/3) (1/4)
    ∧ blendDAE 1 2 3 4 5 6 7 8 (1/2) (1/3) (1/4)
        = blendDEA 1 2 3 4 5 6 7 8 (1/2) (1/3) (1/4)
    ∧ blendDAE 1 2 3 4 5 6 7 8 (1/2) (1/3) (1/4)
        = blendEDA 1 2 3 4 5 6 7 8 (1/2) (1/3) (1/4) :=
  trilinear_blend_axis_order 1 2 3 4 5 6 7 8 (1/2) (1/3) (1/4)
    (by norm_num) (by norm_num) (by norm_num) (by norm_num) (by norm_num) (by norm_num)

/-- C3: for every successfully ingested layer `i` with raw counts `R_i` and
event count `n_i > 0`, finalizing under per-event average yields
`values[i] = R_i / n_i` elementwise, and finalizing under density yields
`values[i] = (R_i / n_i) / solid_angle_bin_area` elementwise at every
(angle, distance) bin whose area is at least `1e-10`, and exactly `0` at
every bin whose area is below `1e-10`. -/
theorem normalization_scaling (files : ℚ → Option (ℚ × Grid2)) (energies : List ℚ)
    (areas : Grid2) (i : Nat) (n : ℚ) (c : Grid2)
    (hi : i < energies.length) (hf : files (energies.getD i 0) = some (n, c))
    (hn : 0 < n) :
    (∀ j m, (avgCreate3d files energies).averageTable i j m
        = (avgCreate3d files energies).photonTable i j m / n)
    ∧ (∀ j m, 1 / 10 ^ 10 ≤ areas j m →
        (denCreate3d files energies areas).densityTable i j m
          = (denCreate3d files energies areas).normalizedTable i j m / areas j m)
    ∧ (∀ j m, areas j m < 1 / 10 ^ 10 →
        (denCreate3d files energies areas).densityTable i j m = 0) := by
  refine ⟨?_, ?_, ?_⟩
  · intro j m
    simp only [avgCreate3d, if_pos hi, hf]
  · intro j m hjm
    simp only [denCreate3d, avgCreate3d, if_pos hi, hf]
    rw [if_neg (not_lt.mpr hjm)]
  · intro j m hjm
    simp only [denCreate3d, if_pos hi, hf]
    rw [if_pos hjm]

/-- Witness for C3 on the layer at 200 MeV of `exAvgFiles` (10 events,
constant raw counts 4): per-event average, density at a regular bin, and the
zeroed near-degenerate bin. -/
theorem normalization_scaling_witness :
    (avgCreate3d exAvgFiles [100, 200]).averageTable 1 0 0
        = (avgCreate3d exAvgFiles [100, 200]).photonTable 1 0 0 / 10
    ∧ (denCreate3d exAvgFiles [100, 200] exAreas).densityTable 1 1 1
        = (denCreate3d exAvgFiles [100, 200] exAreas).normalizedTable 1 1 1
          / exAreas 1 1
    ∧ (denCreate3d exAvgFiles [100, 200] exAreas).densityTable 1 0 0 = 0 := by
  have h := normalization_scaling exAvgFiles [100, 200] exAreas 1 10 (fun _ _ => 4)
    (by norm_num) (by norm_num [exAvgFiles]) (by norm_num)
  exact ⟨h.1 0 0, h.2.1 1 1 (by norm_num [exAreas]), h.2.2 0 0 (by norm_num [exAreas])⟩

/-- C10: after the discrete-energy builder assembles its 3D table, every
energy layer whose stacked raw 2D histogram has a positive total is rescaled
by dividing by that total, so the layer's entries sum to 1, and every layer
whose total is zero (with non-negative entries) is left all-zero — a
normalization mode distinct from raw, per-event-average and density, so the
persisted values are layer-wise probabilities. -/
theorem discrete_layer_normalization (na nd : Nat) (loaded : List (ℚ × Grid2))
    (i : Nat) :
    (0 < sum2 na nd (rawLayer na nd loaded i) →
      sum2 na nd (discreteStack na nd loaded i) = 1)
    ∧ ((∀ j, j < na → ∀ m, m < nd → 0 ≤ rawLayer na nd loaded i j m) →
        sum2 na nd (rawLayer na nd loaded i) = 0 →
        ∀ j m, discreteStack na nd loaded i j m = 0) := by
  constructor
  · intro hpos
    unfold discreteStack
    simp only [if_pos hpos]
    have hsum : sum2 na nd (fun j m =>
        rawLayer na nd loaded i j m / sum2 na nd (rawLayer na nd loaded i))
        = sum2 na nd (rawLayer na nd loaded i)
          / sum2 na nd (rawLayer na nd loaded i) := by
      unfold sum2
      rw [Finset.sum_div]
      refine Finset.sum_congr rfl ?_
      intro j _
      rw [Finset.sum_div]
    rw [hsum, div_self (ne_of_gt hpos)]
  · intro hnn hzero j m
    unfold discreteStack
    rw [hzero]
    rw [if_neg (lt_irrefl 0)]
    by_cases hb : j < na ∧ m < nd
    · have hrow : ∀ x ∈ Finset.range na,
          0 ≤ Finset.sum (Finset.range nd) (fun y => rawLayer na nd loaded i x y) :=
        fun x hx => Finset.sum_nonneg
          (fun y hy => hnn x (Finset.mem_range.mp hx) y (Finset.mem_range.mp hy))
      have h1 := (Finset.sum_eq_zero_iff_of_nonneg hrow).mp hzero j
        (Finset.mem_range.mpr hb.1)
      have h2 := (Finset.sum_eq_zero_iff_of_nonneg
        (fun y hy => hnn j hb.1 y (Finset.mem_range.mp hy))).mp h1 m
        (Finset.mem_range.mpr hb.2)
      exact h2
    · unfold rawLayer
      rw [if_neg hb]

/-- Witness for C10: a 4-photon layer normalizes to total probability 1, and
an all-zero layer stays zero. -/
theorem discrete_layer_normalization_witness :
    sum2 2 2 (discreteStack 2 2 exLoadedPos 0) = 1
    ∧ discreteStack 2 2 exLoadedZero 0 1 1 = 0 := by
  constructor
  · refine (discrete_layer_normalization 2 2 exLoadedPos 0).1 ?_
    norm_num [sum2, rawLayer, histLookup, sortedEnergies, exLoadedPos,
      List.mergeSort, List.find?, Finset.sum_range_succ]
  · refine (discrete_layer_normalization 2 2 exLoadedZero 0).2 ?_ ?_ 1 1
    · intro j hj m hm
      norm_num [rawLayer, histLookup, sortedEnergies, exLoadedZero,
        List.mergeSort, List.find?]
    · norm_num [sum2, rawLayer, histLookup, sortedEnergies, exLoadedZero,
        List.mergeSort, List.find?, Finset.sum_range_succ]

/-- C4 (amended): in `DiscreteEnergy3DTableBuilder` the finished table's
energy axis is the ascending sort of exactly the successfully loaded
energies — one layer per loaded histogram, nothing zero-filled, no
pre-declared range.  (The average/density builders instead keep a
pre-declared axis with zero-filled layers; see the counterexample.) -/
theorem discrete_energy_axis (loaded : List (ℚ × Grid2)) :
    (sortedEnergies loaded).Sorted (· ≤ ·)
    ∧ (sortedEnergies loaded).length = loaded.length
    ∧ ∀ e, e ∈ sortedEnergies loaded ↔ e ∈ loaded.map Prod.fst := by
  refine ⟨?_, ?_, ?_⟩
  · have h : ((loaded.map Prod.fst).mergeSort
        (fun x y => decide (x ≤ y))).Pairwise (fun x y => decide (x ≤ y) = true) :=
      List.sorted_mergeSort
        (fun a b c hab hbc => by
          simp only [decide_eq_true_eq] at *
          linarith)
        (fun a b => by simp [le_total]) (loaded.map Prod.fst)
    exact h.imp (fun {a b} hab => by simpa using hab)
  · simp [sortedEnergies]
  · intro e
    simp [sortedEnergies]

/-- C4 counterexample: `AveragePhotonTable3D.create_3d_table` with energies
`[100, 200]` where the 100 MeV file is missing.  The saved energy axis still
contains 100 (it is not the sorted set `[200]` of successfully ingested
energies), and the failed energy is represented as a zero-filled layer. -/
theorem avg_energy_axis_counterexample :
    (avgCreate3d exAvgFiles [100, 200]).energyAxis = [100, 200]
    ∧ exAvgFiles 100 = none
    ∧ (avgCreate3d exAvgFiles [100, 200]).energyAxis ≠ [200]
    ∧ (avgCreate3d exAvgFiles [100, 200]).photonTable 0 0 0 = 0 := by
  refine ⟨rfl, by norm_num [exAvgFiles], by simp [avgCreate3d], ?_⟩
  norm_num [avgCreate3d, exAvgFiles]

/-- C5 (amended): in `MultiEnergyPhotonTable3D` the persisted `total_photons`
(defined as the table sum) equals the summed raw counts of exactly the
layers whose histogram shape matched the established dimensions — assembly
conserves the accepted layers' photons, while skipped layers contribute
nothing.  (In `DiscreteEnergyTableBuilder` the recorded `total_photons`
counts photons dropped by the 95th-percentile distance filter, so
`values.sum()` can be strictly smaller; see the counterexample.) -/
theorem multi_conservation (a0 d0 : Nat) (files : List Hist2D) :
    multiTotalPhotons a0 d0 files
      = Finset.sum (Finset.range files.length) (fun i =>
          if ((files.getD i default).na, (files.getD i default).nd)
              = multiDims a0 d0 files
          then sum2 (multiDims a0 d0 files).1 (multiDims a0 d0 files).2
            (files.getD i default).val
          else 0) := by
  unfold multiTotalPhotons sum3
  refine Finset.sum_congr rfl ?_
  intro i hi
  have hil : i < files.length := Finset.mem_range.mp hi
  by_cases hmatch : ((files.getD i default).na, (files.getD i default).nd)
      = multiDims a0 d0 files
  · rw [if_pos hmatch]
    unfold sum2 multiValues
    refine Finset.sum_congr rfl ?_
    intro j hj
    refine Finset.sum_congr rfl ?_
    intro m hm
    rw [if_pos ⟨hil, hmatch, Finset.mem_range.mp hj, Finset.mem_range.mp hm⟩]
  · rw [if_neg hmatch]
    unfold sum2 multiValues
    refine Finset.sum_eq_zero ?_
    intro j _
    refine Finset.sum_eq_zero ?_
    intro m _
    rw [if_neg (fun h => hmatch h.2.1)]

/-- C7 (amended): in `MultiEnergyPhotonTable3D.create_3d_table` a layer after
the first whose histogram shape mismatches the established dimensions is
dropped with a warning and the assembly continues: its data never enters the
table (its layer stays zero) while every shape-matching layer's data is
stored unchanged.  (`DiscreteEnergy3DTableBuilder` instead aborts on a
mismatched layer; see the counterexample.) -/
theorem multi_shape_mismatch_skipped (a0 d0 : Nat) (files : List Hist2D) (i : Nat)
    (hi : i < files.length)
    (hmm : ((files.getD i default).na, (files.getD i default).nd)
      ≠ multiDims a0 d0 files) :
    (∀ j m, multiValues a0 d0 files i j m = 0)
    ∧ ∀ k j m, k < files.length →
        ((files.getD k default).na, (files.getD k default).nd)
          = multiDims a0 d0 files →
        j < (multiDims a0 d0 files).1 → m < (multiDims a0 d0 files).2 →
        multiValues a0 d0 files k j m = (files.getD k default).val j m := by
  constructor
  · intro j m
    unfold multiValues
    rw [if_neg (fun h => hmm h.2.1)]
  · intro k j m hk hsh hj hm
    unfold multiValues
    rw [if_pos ⟨hk, hsh, hj, hm⟩]

/-- Witness for C7's amended statement on `exMultiFiles`: the mismatched
3 × 2 layer contributes zero while the first layer's entry survives. -/
theorem multi_shape_mismatch_skipped_witness :
    multiValues 500 500 exMultiFiles 1 0 0 = 0
    ∧ multiValues 500 500 exMultiFiles 0 1 1
      = (exMultiFiles.getD 0 default).val 1 1 := by
  have h := multi_shape_mismatch_skipped 500 500 exMultiFiles 1
    (by norm_num [exMultiFiles])
    (by norm_num [exMultiFiles, multiDims])
  exact ⟨h.1 0 0, h.2 0 1 1 (by norm_num [exMultiFiles])
    (by norm_num [exMultiFiles, multiDims])
    (by norm_num [exMultiFiles, multiDims])
    (by norm_num [exMultiFiles, multiDims])⟩

/-- C7 counterexample: `DiscreteEnergy3DTableBuilder` never validates later
histogram shapes, so stacking the 3 × 2 histogram of `exLoadedE` into the
2 × 2 array established by the first layer raises a broadcast error and the
whole build aborts — the layer is not dropped-and-skipped. -/
theorem discrete_shape_mismatch_counterexample :
    discreteStackE exLoadedE = .error .broadcastError := rfl

/-- C2 (amended): in `DiscreteEnergyTableQuery` every on-grid query is exact:
for any stored energy layer `k` and any angle/distance bin centers `j`, `m`
of a well-formed table, `query(energy_k, angle_centers[j],
distance_centers[m])` equals the stored `values[k, j, m]`.
(`PhotonTableQuery` anchors values at the lower bin edges instead, so a
query at bin centers blends adjacent bins and need not return the stored
value; see the counterexample.) -/
theorem detquery_grid_exact (t : DETable)
    (hpw : t.energy_centers.Pairwise (· < ·))
    (hA : axisWF t.angle_edges t.angle_centers)
    (hD : axisWF t.distance_edges t.distance_centers)
    (k j m : Nat) (hk : k < t.energy_centers.length)
    (hj : j < t.angle_centers.length) (hm : m < t.distance_centers.length) :
    t.query (t.energy_centers.getD k 0) (t.angle_centers.getD j 0)
        (t.distance_centers.getD m 0) = t.values k j m := by
  rw [query_at_energy_center t hpw k hk]
  exact query2dLayer_center t hA hD k j m hj hm

/-- Witness for C2's amended statement: the on-grid query of `exDET` at layer
1, angle bin 1, distance bin 0 returns the stored value. -/
theorem detquery_grid_exact_witness :
    DETable.query exDET (List.getD exDET.energy_centers 1 0)
        (List.getD exDET.angle_centers 1 0) (List.getD exDET.distance_centers 0 0)
      = exDET.values 1 1 0 :=
  detquery_grid_exact exDET (by decide) (by decide) (by decide) 1 1 0
    (by decide) (by decide) (by decide)

/-- C2 counterexample: `PhotonTableQuery.query` at the bin-center point
`(1/2, 1/2, 1/2)` of `exPQ` (bin `(0,0,0)` of edges `[0,1,2]` on every axis)
returns the 8-corner blend `1`, not the stored value `8`. -/
theorem pq_grid_exact_counterexample :
    PhotonTable.query exPQ (1/2) (1/2) (1/2) = 1
    ∧ exPQ.histogram 0 0 0 = 8 := by
  constructor
  · norm_num [PhotonTable.query, exPQ, countLt, List.countP_cons, List.countP_nil,
      decide_eq_true_eq]
  · norm_num [exPQ]

/-- C1 (amended): `DiscreteEnergyTableQuery.query` clamps the energy axis:
for any fixed (angle, distance), a query below the lowest stored energy
returns exactly the query at the lowest energy, and a query above the
highest returns exactly the query at the highest — never an error.
(`PhotonTableQuery.query` instead returns `0.0` for any out-of-range
coordinate, not the boundary interpolation; see the counterexample.) -/
theorem detquery_energy_clamp (t : DETable)
    (hpw : t.energy_centers.Pairwise (· < ·)) (e a d : ℚ) :
    (e ≤ t.energy_centers.getD 0 0 →
      t.query e a d = t.query (t.energy_centers.getD 0 0) a d)
    ∧ (t.energy_centers.getD (t.energy_centers.length - 1) 0 ≤ e →
      t.query e a d
        = t.query (t.energy_centers.getD (t.energy_centers.length - 1) 0) a d) := by
  constructor
  · intro h
    unfold DETable.query
    rw [if_pos h, if_pos le_rfl]
  · intro h
    unfold DETable.query
    by_cases hc : t.energy_centers.getD (t.energy_centers.length - 1) 0
        ≤ t.energy_centers.getD 0 0
    · have hn : t.energy_centers.length - 1 = 0 := by
        by_contra hcon
        have hlt := getD_lt_getD _ hpw 0 (t.energy_centers.length - 1)
          (by omega) (by omega)
        exact absurd hc (not_le.mpr hlt)
      by_cases he : e ≤ t.energy_centers.getD 0 0
      · rw [if_pos he, if_pos hc]
      · rw [if_neg he, if_pos h, if_pos hc, hn]
    · have hc0 : t.energy_centers.getD 0 0
          < t.energy_centers.getD (t.energy_centers.length - 1) 0 := not_le.mp hc
      have he : ¬ e ≤ t.energy_centers.getD 0 0 :=
        not_le.mpr (lt_of_lt_of_le hc0 h)
      rw [if_neg he, if_pos h, if_neg hc, if_pos le_rfl]

/-- Witness for C1's amended statement: a 50 MeV query of `exDET` (below the
100 MeV minimum) equals the query at the minimum, and a 300 MeV query equals
the query at the 200 MeV maximum. -/
theorem detquery_energy_clamp_witness :
    DETable.query exDET 50 1 1
      = DETable.query exDET (List.getD exDET.energy_centers 0 0) 1 1
    ∧ DETable.query exDET 300 1 1
      = DETable.query exDET
          (List.getD exDET.energy_centers (exDET.energy_centers.length - 1) 0) 1 1 :=
  ⟨(detquery_energy_clamp exDET (by decide) 50 1 1).1 (by decide),
    (detquery_energy_clamp exDET (by decide) 300 1 1).2 (by decide)⟩

/-- C1 counterexample: `PhotonTableQuery.query` on `exPQ` returns 0 for an
energy below the range, while the query at the energy-axis minimum returns
the non-zero boundary interpolation 2 — out-of-range queries are zeroed, not
clamped. -/
theorem pq_clamp_counterexample :
    PhotonTable.query exPQ (-1) (1/2) (1/2) = 0
    ∧ PhotonTable.query exPQ 0 (1/2) (1/2) = 2 := by
  constructor
  · norm_num [PhotonTable.query, exPQ]
  · norm_num [PhotonTable.query, exPQ, countLt, List.countP_cons, List.countP_nil,
      decide_eq_true_eq]

/-- C6 (amended): for a well-formed table whose stored values are all
non-negative, every query whose angle and distance interpolation weights lie
in `[0, 1]` returns a non-negative result (the energy weight always lies in
`[0, 1]`).  The restriction is necessary: near the upper edge of a bin the
angle/distance weight computed by `_query_2d_layer` exceeds 1, and the
result can then be negative; see the counterexample. -/
theorem detquery_nonneg (t : DETable)
    (hpw : t.energy_centers.Pairwise (· < ·))
    (hv : ∀ i j m, 0 ≤ t.values i j m) (e a d : ℚ)
    (ha0 : 0 ≤ (locate t.angle_edges t.angle_centers a).2.2)
    (ha1 : (locate t.angle_edges t.angle_centers a).2.2 ≤ 1)
    (hd0 : 0 ≤ (locate t.distance_edges t.distance_centers d).2.2)
    (hd1 : (locate t.distance_edges t.distance_centers d).2.2 ≤ 1) :
    0 ≤ t.query e a d := by
  have hq : ∀ i, 0 ≤ t.query2dLayer i a d := fun i =>
    bilin_nonneg t i _ _ hv ha0 ha1 hd0 hd1
  unfold DETable.query
  by_cases h1 : e ≤ t.energy_centers.getD 0 0
  · rw [if_pos h1]
    exact hq 0
  · rw [if_neg h1]
    by_cases h2 : t.energy_centers.getD (t.energy_centers.length - 1) 0 ≤ e
    · rw [if_pos h2]
      exact hq _
    · rw [if_neg h2]
      have hc0 : t.energy_centers.getD 0 0 < e := not_le.mp h1
      have hce : e < t.energy_centers.getD (t.energy_centers.length - 1) 0 :=
        not_le.mp h2
      have hn : 2 ≤ t.energy_centers.length := by
        by_contra hcon
        push_neg at hcon
        have hz : t.energy_centers.length - 1 = 0 := by omega
        rw [hz] at hce
        exact absurd (lt_trans hc0 hce) (lt_irrefl _)
      have hple : t.energy_centers.Pairwise (· ≤ ·) := hpw.imp le_of_lt
      have hhi1 : 1 ≤ countLt t.energy_centers e :=
        lt_countLt _ e hple 0 (by omega) hc0
      have hhin : countLt t.energy_centers e ≤ t.energy_centers.length - 1 :=
        countLt_le _ e hple (t.energy_centers.length - 1) (by omega) (le_of_lt hce)
      have hlo : t.energy_centers.getD (countLt t.energy_centers e - 1) 0 < e :=
        (countLt_char _ e hple (countLt t.energy_centers e - 1) (by omega)).mpr
          (by omega)
      have hhi : e ≤ t.energy_centers.getD (countLt t.energy_centers e) 0 := by
        by_contra hcon
        push_neg at hcon
        have := lt_countLt _ e hple (countLt t.energy_centers e) (by omega) hcon
        omega
      have hstep : t.energy_centers.getD (countLt t.energy_centers e - 1) 0
          < t.energy_centers.getD (countLt t.energy_centers e) 0 :=
        getD_lt_getD _ hpw _ _ (by omega) (by omega)
      have hw0 : 0 ≤ (e - t.energy_centers.getD (countLt t.energy_centers e - 1) 0)
          / (t.energy_centers.getD (countLt t.energy_centers e) 0
            - t.energy_centers.getD (countLt t.energy_centers e - 1) 0) :=
        div_nonneg (by linarith) (by linarith)
      have hw1 : (e - t.energy_centers.getD (countLt t.energy_centers e - 1) 0)
          / (t.energy_centers.getD (countLt t.energy_centers e) 0
            - t.energy_centers.getD (countLt t.energy_centers e - 1) 0) ≤ 1 := by
        rw [div_le_one (by linarith)]
        linarith
      by_cases hwz : (e - t.energy_centers.getD (countLt t.energy_centers e - 1) 0)
          / (t.energy_centers.getD (countLt t.energy_centers e) 0
            - t.energy_centers.getD (countLt t.energy_centers e - 1) 0) = 0
      · rw [if_pos hwz]
        exact hq _
      · rw [if_neg hwz]
        exact add_nonneg (mul_nonneg (hq _) (by linarith))
          (mul_nonneg (hq _) hw0)

/-- Witness for C6's amended statement: a 150 MeV query of the non-negative
table `exDET` at the bin-center point `(1, 1)` (both weights 0) is
non-negative. -/
theorem detquery_nonneg_witness : 0 ≤ DETable.query exDET 150 1 1 :=
  detquery_nonneg exDET (by decide)
    (fun i j m => by
      show 0 ≤ exDETvalues i j m
      unfold exDETvalues
      split_ifs <;> norm_num)
    150 1 1
    (by norm_num [locate, exDET, countLt, List.countP_cons, List.countP_nil,
      decide_eq_true_eq])
    (by norm_num [locate, exDET, countLt, List.countP_cons, List.countP_nil,
      decide_eq_true_eq])
    (by norm_num [locate, exDET, countLt, List.countP_cons, List.countP_nil,
      decide_eq_true_eq])
    (by norm_num [locate, exDET, countLt, List.countP_cons, List.countP_nil,
      decide_eq_true_eq])

/-- C6 counterexample: `exNegDET` stores only the non-negative corner values
10 and 0, and the in-range query `(100, 19/5, 1)` — the angle lies inside
the last bin, above its center — returns `-4`: the angle weight `7/5`
computed by `_query_2d_layer` exceeds 1 and flips the sign. -/
theorem detquery_negative_counterexample :
    0 ≤ exNegValues 0 0 0 ∧ 0 ≤ exNegValues 0 1 0
    ∧ DETable.query exNegDET 100 (19/5) 1 = -4 := by
  refine ⟨by norm_num [exNegValues], by norm_num [exNegValues], ?_⟩
  norm_num [DETable.query, DETable.query2dLayer, DETable.bilin, locate,
    exNegDET, exNegValues, countLt, List.countP_cons, List.countP_nil,
    decide_eq_true_eq]

/-- C8 (amended): no NaN/∞ validation exists and no `InvalidQueryError` is
ever raised.  Every query of a well-formed table with finite coordinates
raises no exception: the bounds-checked query succeeds and agrees with the
pure interpolation.  (A NaN energy instead escapes both boundary checks and
crashes with numpy's `IndexError`; see the counterexample.) -/
theorem detqueryE_finite_ok (t : DETable)
    (hpos : 0 < t.energy_centers.length)
    (hpw : t.energy_centers.Pairwise (· < ·))
    (hA : axisWF t.angle_edges t.angle_centers)
    (hD : axisWF t.distance_edges t.distance_centers)
    (e a d : ℚ) :
    t.queryE (.fin e) a d = .ok (t.query e a d) := by
  unfold DETable.queryE DETable.query
  rw [getQ_ok _ _ hpos]
  dsimp only
  simp only [xleR, xleL, xCountLt, decide_eq_true_eq]
  by_cases h1 : e ≤ t.energy_centers.getD 0 0
  · rw [if_pos h1, if_pos h1, query2dE_ok t hA hD]
  · rw [if_neg h1, if_neg h1,
      getQ_ok _ _ (show t.energy_centers.length - 1 < t.energy_centers.length
        by omega)]
    dsimp only
    by_cases h2 : t.energy_centers.getD (t.energy_centers.length - 1) 0 ≤ e
    · rw [if_pos h2, if_pos h2, query2dE_ok t hA hD]
    · rw [if_neg h2, if_neg h2]
      have hc0 : t.energy_centers.getD 0 0 < e := not_le.mp h1
      have hce : e < t.energy_centers.getD (t.energy_centers.length - 1) 0 :=
        not_le.mp h2
      have hn : 2 ≤ t.energy_centers.length := by
        by_contra hcon
        push_neg at hcon
        have hz : t.energy_centers.length - 1 = 0 := by omega
        rw [hz] at hce
        exact absurd (lt_trans hc0 hce) (lt_irrefl _)
      have hple : t.energy_centers.Pairwise (· ≤ ·) := hpw.imp le_of_lt
      have hhin : countLt t.energy_centers e ≤ t.energy_centers.length - 1 :=
        countLt_le _ e hple (t.energy_centers.length - 1) (by omega) (le_of_lt hce)
      rw [getQ_ok _ _ (show countLt t.energy_centers e - 1 < t.energy_centers.length
        by omega)]
      dsimp only
      rw [getQ_ok _ _ (show countLt t.energy_centers e < t.energy_centers.length
        by omega)]
      dsimp only
      rw [query2dE_ok t hA hD (countLt t.energy_centers e - 1) a d,
        query2dE_ok t hA hD (countLt t.energy_centers e) a d]

/-- Witness for C8's amended statement: the bounds-checked query of `exDET`
at the finite point `(150, 1, 1)` succeeds with the pure result — no
exception. -/
theorem detqueryE_finite_ok_witness :
    DETable.queryE exDET (.fin 150) 1 1 = .ok (DETable.query exDET 150 1 1) :=
  detqueryE_finite_ok exDET (by decide) (by decide) (by decide) (by decide) 150 1 1

/-- C8 counterexample: a NaN energy on `exDET` raises numpy's `IndexError`
(the `energy_centers[energy_idx_high]` fetch of line 78 goes out of bounds),
not the `InvalidQueryError` the specification prescribes — no such
validation exists in the code. -/
theorem detqueryE_nan_counterexample :
    DETable.queryE exDET .nan 1 1 = .error .indexError
    ∧ QueryError.indexError ≠ QueryError.invalidQuery :=
  ⟨rfl, by decide⟩

/-- C5 counterexample: `DiscreteEnergyTableBuilder` on one event whose three
photons sit at distances 1, 1 and 100: the recorded `total_photons` is 3,
but the 95th-percentile distance filter (cutoff 90.1) drops the far photon
before histogramming, so the stacked table's entries sum to 2 —
`Table.values.sum() ≠ Table.total_photons`. -/
theorem discrete_total_photons_counterexample :
    sum3 1 1 1 exC5stack.1 = 2 ∧ exC5stack.2 = 3 := by
  have h1 : exC5tab.1 0 0 = 2 := by
    norm_num [exC5tab, create2dFromPairs, exC5events, percentile95, sortQ,
      insertSorted, listMinQ, listMaxQ, linspaceQ, hist2, histBinQ, countLE,
      List.countP_cons, List.countP_nil, decide_eq_true_eq, List.range_succ]
  have h2 : exC5tab.2 = 3 := by
    norm_num [exC5tab, create2dFromPairs, exC5events, percentile95, sortQ,
      insertSorted, listMinQ, listMaxQ, linspaceQ, hist2, histBinQ, countLE,
      List.countP_cons, List.countP_nil, decide_eq_true_eq, List.range_succ]
  constructor
  · norm_num [sum3, sum2, Finset.sum_range_succ, exC5stack, stackTables,
      List.mergeSort, List.find?, h1]
  · norm_num [exC5stack, stackTables, h2]
